import Mathlib

/-!
Verification of the KaziTracker application-lifecycle engine
(`backend/routes/applications.py`, `update_application`) against its
natural-language specification.

Shallow embedding conventions:
* `datetime` / `date` values are abstract `Nat` clock readings; the single
  request-scoped `datetime.utcnow()` is the parameter `now`, and
  `datetime.utcnow().date()` is the parameter `today`.
* `float` salary is modelled as `Int`: the handler only copies, defaults
  (`or 0`) and truth-tests it, never does float arithmetic.
* Python truthiness is modelled per type: `None` and `""` are falsy for
  strings, `None` and `0` for numbers, only `None` for datetime/date
  objects (a datetime object is always truthy).
* Pydantic parses an explicitly supplied JSON `null` and an omitted field
  both to `None`; `JField` models the JSON level and `JField.toOpt` the
  collapse performed by the schema layer, since the handler reads plain
  attributes and never consults `model_fields_set`.
* The ORM session of `get_session` is a single unit of work: the handler
  mutates fetched rows in memory and persists everything with one
  `session.commit()` at the end; an exception raised before the commit
  leaves the store untouched (the `with Session(...)` block closes without
  committing, rolling back).  `updateApplication` returns the new store on
  success and an error tag on `HTTPException`; `updateApplicationRun`
  packages the rollback-on-error semantics.
-/

namespace KaziTracker

/-- JSON-level presence of a patch field: omitted, explicit null, or a value. -/
inductive JField (α : Type) where
  | omitted
  | null
  | val (a : α)
deriving DecidableEq, Repr

/-- What the pydantic schema layer hands to the handler: both `omitted` and
`null` become `None` (the schema declares `Optional[...] = None` and the
handler reads plain attributes). -/
def JField.toOpt {α : Type} : JField α → Option α
  | .omitted => none
  | .null => none
  | .val a => some a

/-- Row of the `application` table (`models.py`, class `Application`).
`status` is `Option String` to reflect the Python object level, where
`a.status` can be tested for truthiness. -/
structure Application where
  id : Nat
  user_id : Nat
  job_id : Nat
  status : Option String
  applied_date : Option Nat
  interview_date : Option Nat
  offer_date : Option Nat
  rejected_date : Option Nat
  resume_id : Option Nat
  rejection_reason : Option String
  offer_details : Option String
  notes : Option String
  created_at : Nat
  updated_at : Nat
deriving DecidableEq, Repr

/-- Row of the `job` table, restricted to the columns `update_application`
reads (`models.py`, class `Job`). -/
structure Job where
  id : Nat
  user_id : Nat
  company : String
  title : String
deriving DecidableEq, Repr

/-- Row of the `offer` table with the fields the route writes
(`models.py` class `Offer` plus the offer-detail columns the route and
`schemas/offer.py` use). -/
structure Offer where
  id : Nat
  user_id : Nat
  application_id : Nat
  company_name : String
  position : String
  salary : Int
  currency : String
  salary_frequency : String
  position_type : Option String
  location : Option String
  start_date : Nat
  offer_date : Nat
  deadline : Nat
  benefits : Option String
  notes : Option String
  status : String
  negotiation_history : Option String
  created_at : Nat
  updated_at : Nat
deriving DecidableEq, Repr

/-- The `ApplicationUpdate` pydantic schema (`schemas/application.py`) as the
handler sees it: every field optional, defaulting to `None`.  The
`offer_date` field is declared by the schema but never read by the handler. -/
structure ApplicationUpdate where
  status : Option String := none
  applied_date : Option Nat := none
  interview_date : Option Nat := none
  offer_date : Option Nat := none
  rejected_date : Option Nat := none
  resume_id : Option Nat := none
  notes : Option String := none
  rejection_reason : Option String := none
  offer_salary : Option Int := none
  offer_currency : Option String := none
  offer_salary_frequency : Option String := none
  offer_position_type : Option String := none
  offer_location : Option String := none
  offer_start_date : Option Nat := none
  offer_deadline : Option Nat := none
  offer_benefits : Option String := none
  offer_notes : Option String := none
deriving DecidableEq, Repr

/-- The raw JSON body of an update request, distinguishing omitted fields
from explicit nulls. -/
structure ApplicationUpdateJson where
  status : JField String := .omitted
  applied_date : JField Nat := .omitted
  interview_date : JField Nat := .omitted
  offer_date : JField Nat := .omitted
  rejected_date : JField Nat := .omitted
  resume_id : JField Nat := .omitted
  notes : JField String := .omitted
  rejection_reason : JField String := .omitted
  offer_salary : JField Int := .omitted
  offer_currency : JField String := .omitted
  offer_salary_frequency : JField String := .omitted
  offer_position_type : JField String := .omitted
  offer_location : JField String := .omitted
  offer_start_date : JField Nat := .omitted
  offer_deadline : JField Nat := .omitted
  offer_benefits : JField String := .omitted
  offer_notes : JField String := .omitted
deriving DecidableEq, Repr

/-- Pydantic validation of the JSON body: explicit null and omission both
yield the attribute value `None`. -/
def parseUpdate (j : ApplicationUpdateJson) : ApplicationUpdate :=
  { status := j.status.toOpt
    applied_date := j.applied_date.toOpt
    interview_date := j.interview_date.toOpt
    offer_date := j.offer_date.toOpt
    rejected_date := j.rejected_date.toOpt
    resume_id := j.resume_id.toOpt
    notes := j.notes.toOpt
    rejection_reason := j.rejection_reason.toOpt
    offer_salary := j.offer_salary.toOpt
    offer_currency := j.offer_currency.toOpt
    offer_salary_frequency := j.offer_salary_frequency.toOpt
    offer_position_type := j.offer_position_type.toOpt
    offer_location := j.offer_location.toOpt
    offer_start_date := j.offer_start_date.toOpt
    offer_deadline := j.offer_deadline.toOpt
    offer_benefits := j.offer_benefits.toOpt
    offer_notes := j.offer_notes.toOpt }

/-- Persistent store visible to the handler: the three tables it touches,
plus the autoincrement counter for `offer.id`. -/
structure DB where
  apps : List Application
  jobs : List Job
  offers : List Offer
  nextOfferId : Nat
deriving DecidableEq, Repr

/-- Python `x or d` for an optional string attribute: falsy (`None` or `""`)
falls back to the default. -/
def orStr (x : Option String) (d : String) : String :=
  match x with
  | some s => if s = "" then d else s
  | none => d

/-- Python `x or d` for an optional numeric attribute: falsy (`None` or `0`)
falls back to the default. -/
def orInt (x : Option Int) (d : Int) : Int :=
  match x with
  | some v => if v = 0 then d else v
  | none => d

/-- Python `x or d` for an optional datetime/date attribute: a date object is
always truthy, so only `None` falls back. -/
def orDate (x : Option Nat) (d : Nat) : Nat := x.getD d

/-- Python `str.lower()` restricted to the ASCII range, which covers every
status literal the handler compares against. -/
def pyLower (s : String) : String := ⟨s.data.map Char.toLower⟩

/-- Lines 87: `old_status = a.status.lower() if a.status else None`. -/
def oldStatusOf (a : Application) : Option String :=
  match a.status with
  | some s => if s = "" then none else some (pyLower s)
  | none => none

/-- The truthy-normalized requested status, `app_update.status.lower() if
app_update.status else None`. -/
def statusReq (u : ApplicationUpdate) : Option String :=
  match u.status with
  | some s => if s = "" then none else some (pyLower s)
  | none => none

/-- Line 88: `new_status = app_update.status.lower() if app_update.status
else old_status`. -/
def newStatusOf (u : ApplicationUpdate) (a : Application) : Option String :=
  match statusReq u with
  | some s => some s
  | none => oldStatusOf a

/-- Lines 91-104: field-level partial update guarded by `is not None`
(`ns` is the precomputed `new_status`). -/
def applyAppFields (ns : Option String) (u : ApplicationUpdate) (a : Application) : Application :=
  { a with
    status := if u.status.isSome then ns else a.status
    applied_date := match u.applied_date with
      | some v => some v
      | none => a.applied_date
    interview_date := match u.interview_date with
      | some v => some v
      | none => a.interview_date
    rejected_date := match u.rejected_date with
      | some v => some v
      | none => a.rejected_date
    rejection_reason := match u.rejection_reason with
      | some v => some v
      | none => a.rejection_reason
    resume_id := match u.resume_id with
      | some v => some v
      | none => a.resume_id
    notes := match u.notes with
      | some v => some v
      | none => a.notes }

/-- Lines 106-113: the auto-stamping `if app_update.status:` elif chain.
The three guards are mutually exclusive (a single lowered patch status
cannot equal two different literals), so the elif chain equals three
independent conditional field updates. -/
def autoStamp (now : Nat) (u : ApplicationUpdate) (a : Application) : Application :=
  { a with
    applied_date :=
      if statusReq u = some "applied" ∧ a.applied_date = none then some now else a.applied_date
    interview_date :=
      if statusReq u = some "interview" ∧ a.interview_date = none then some now else a.interview_date
    rejected_date :=
      if statusReq u = some "rejected" ∧ a.rejected_date = none then some now else a.rejected_date }

/-- Lines 91-115: the full in-memory mutation of the Application row:
scalar fields, auto-stamps, then `a.updated_at = datetime.utcnow()`. -/
def applyUpdate (now : Nat) (ns : Option String) (u : ApplicationUpdate) (a : Application) : Application :=
  { autoStamp now u (applyAppFields ns u a) with updated_at := now }

/-- Lines 139-148: benefits serialization for a new offer.  The schema types
`offer_benefits` as `Optional[str]`, so the `isinstance(.., str)` branch
always takes the string as-is when truthy; no exception can occur. -/
def benefitsOf (x : Option String) : Option String :=
  match x with
  | some s => if s = "" then none else some s
  | none => none

/-- Lines 150-167: the new Offer record built on first transition to
"offer". -/
def mkNewOffer (now today uid appId oid : Nat) (u : ApplicationUpdate) (job : Job) : Offer :=
  { id := oid
    user_id := uid
    application_id := appId
    company_name := job.company
    position := job.title
    salary := orInt u.offer_salary 0
    currency := orStr u.offer_currency "KES"
    salary_frequency := orStr u.offer_salary_frequency "monthly"
    position_type := u.offer_position_type
    location := u.offer_location
    start_date := orDate u.offer_start_date today
    offer_date := today
    deadline := orDate u.offer_deadline now
    benefits := benefitsOf u.offer_benefits
    notes := u.offer_notes
    status := "pending"
    negotiation_history := none
    created_at := now
    updated_at := now }

/-- Lines 170-197: partial update of an existing Offer, every assignment
guarded by Python truthiness (`if app_update.offer_salary:` etc.), then
`existing_offer.updated_at = datetime.utcnow()`. -/
def applyOfferFields (now : Nat) (u : ApplicationUpdate) (off : Offer) : Offer :=
  { off with
    salary := match u.offer_salary with
      | some v => if v = 0 then off.salary else v
      | none => off.salary
    currency := match u.offer_currency with
      | some s => if s = "" then off.currency else s
      | none => off.currency
    salary_frequency := match u.offer_salary_frequency with
      | some s => if s = "" then off.salary_frequency else s
      | none => off.salary_frequency
    position_type := match u.offer_position_type with
      | some s => if s = "" then off.position_type else some s
      | none => off.position_type
    location := match u.offer_location with
      | some s => if s = "" then off.location else some s
      | none => off.location
    start_date := match u.offer_start_date with
      | some v => v
      | none => off.start_date
    deadline := match u.offer_deadline with
      | some v => v
      | none => off.deadline
    notes := match u.offer_notes with
      | some s => if s = "" then off.notes else some s
      | none => off.notes
    benefits := match u.offer_benefits with
      | some s => if s = "" then off.benefits else some s
      | none => off.benefits
    updated_at := now }

/-- Replace the first element satisfying `p` (the ORM mutates in place the
row returned by `.first()`). -/
def replaceFirst {α : Type} (p : α → Bool) (y : α) : List α → List α
  | [] => []
  | x :: xs => if p x then y :: xs else x :: replaceFirst p y xs

/-- The ownership-scoped row filter of line 82:
`Application.id == app_id, Application.user_id == user.id`. -/
def appPred (appId uid : Nat) (a : Application) : Bool :=
  a.id == appId && a.user_id == uid

/-- Line 82: `select(Application).where(id == app_id, user_id == user.id).first()`. -/
def targetApp (db : DB) (appId uid : Nat) : Option Application :=
  db.apps.find? (appPred appId uid)

/-- Line 129: `select(Job).where(Job.id == a.job_id).first()`. -/
def findJob (db : DB) (jid : Nat) : Option Job :=
  db.jobs.find? (fun j => j.id == jid)

/-- Lines 134-136: `select(Offer).where(Offer.application_id == app_id).first()`. -/
def findOffer (db : DB) (appId : Nat) : Option Offer :=
  db.offers.find? (fun o => o.application_id == appId)

/-- The `update_application` handler (`routes/applications.py` lines
70-210), as a transition on the store.  `Except.error` models a raised
`HTTPException` (which reaches the caller before any `session.commit()`). -/
def updateApplication (now today appId uid : Nat) (u : ApplicationUpdate) (db : DB) :
    Except String DB :=
  match targetApp db appId uid with
  | none => Except.error "Application not found"
  | some a0 =>
    if newStatusOf u a0 = some "offer" ∧ oldStatusOf a0 ≠ some "offer" then
      match findJob db a0.job_id with
      | none => Except.error "Job not found"
      | some job =>
        match findOffer db appId with
        | none =>
          Except.ok
            { apps := replaceFirst (appPred appId uid) (applyUpdate now (newStatusOf u a0) u a0) db.apps
              jobs := db.jobs
              offers := db.offers ++ [mkNewOffer now today uid appId db.nextOfferId u job]
              nextOfferId := db.nextOfferId + 1 }
        | some off =>
          Except.ok
            { apps := replaceFirst (appPred appId uid) (applyUpdate now (newStatusOf u a0) u a0) db.apps
              jobs := db.jobs
              offers := replaceFirst (fun o => o.application_id == appId) (applyOfferFields now u off) db.offers
              nextOfferId := db.nextOfferId }
    else
      Except.ok
        { db with apps := replaceFirst (appPred appId uid) (applyUpdate now (newStatusOf u a0) u a0) db.apps }

/-- The whole request including the unit of work of `get_session`: on
success the new store is committed; on an exception the `with` block closes
the session without committing, so the store is unchanged. -/
def updateApplicationRun (now today appId uid : Nat) (u : ApplicationUpdate) (db : DB) : DB :=
  match updateApplication now today appId uid u db with
  | Except.ok db2 => db2
  | Except.error _ => db

deriving instance DecidableEq for Except

theorem replaceFirst_length {α : Type} (p : α → Bool) (y : α) :
    ∀ l : List α, (replaceFirst p y l).length = l.length := by
  intro l
  induction l with
  | nil => rfl
  | cons x xs ih =>
    by_cases hx : p x
    · simp [replaceFirst, hx]
    · simp [replaceFirst, hx, ih]

theorem find?_replaceFirst {α : Type} (p : α → Bool) (y : α) (hy : p y = true) :
    ∀ (l : List α) (x : α), l.find? p = some x →
      (replaceFirst p y l).find? p = some y := by
  intro l
  induction l with
  | nil => intro x hx; simp at hx
  | cons a as ih =>
    intro x hx
    by_cases ha : p a
    · simp [replaceFirst, ha, List.find?_cons_of_pos _ hy]
    · rw [List.find?_cons_of_neg _ ha] at hx
      have hr : replaceFirst p y (a :: as) = a :: replaceFirst p y as := by
        simp [replaceFirst, ha]
      rw [hr, List.find?_cons_of_neg _ ha]
      exact ih x hx

theorem update_ok_apps (now today appId uid : Nat) (u : ApplicationUpdate) (db : DB)
    (a0 : Application) (db2 : DB)
    (h : targetApp db appId uid = some a0)
    (hok : updateApplication now today appId uid u db = Except.ok db2) :
    db2.apps = replaceFirst (appPred appId uid) (applyUpdate now (newStatusOf u a0) u a0) db.apps := by
  unfold updateApplication at hok
  rw [h] at hok
  simp only [] at hok
  split at hok
  · split at hok
    · exact absurd hok (by simp)
    · split at hok
      · cases hok; rfl
      · cases hok; rfl
  · cases hok; rfl

theorem run_apps_shape (now today appId uid : Nat) (u : ApplicationUpdate) (db : DB)
    (a0 : Application) (h : targetApp db appId uid = some a0) :
    (updateApplicationRun now today appId uid u db).apps = db.apps ∨
    (updateApplicationRun now today appId uid u db).apps =
      replaceFirst (appPred appId uid) (applyUpdate now (newStatusOf u a0) u a0) db.apps := by
  unfold updateApplicationRun
  cases hu : updateApplication now today appId uid u db with
  | error e => left; rfl
  | ok db2 => right; exact update_ok_apps now today appId uid u db a0 db2 h hu

theorem appPred_applyUpdate (now appId uid : Nat) (ns : Option String)
    (u : ApplicationUpdate) (a : Application) :
    appPred appId uid (applyUpdate now ns u a) = appPred appId uid a := rfl

/-- After a successful update found via `targetApp`, the stored row for the
same id and owner is exactly the in-memory mutated row. -/
theorem targetApp_after_run (now today appId uid : Nat) (u : ApplicationUpdate)
    (db : DB) (a0 : Application) (h : targetApp db appId uid = some a0) :
    targetApp (updateApplicationRun now today appId uid u db) appId uid = some a0 ∨
    targetApp (updateApplicationRun now today appId uid u db) appId uid =
      some (applyUpdate now (newStatusOf u a0) u a0) := by
  rcases run_apps_shape now today appId uid u db a0 h with hsh | hsh
  · left
    unfold targetApp at h ⊢
    rw [hsh]
    exact h
  · right
    unfold targetApp at h ⊢
    rw [hsh]
    exact find?_replaceFirst (appPred appId uid) (applyUpdate now (newStatusOf u a0) u a0)
      (by rw [appPred_applyUpdate]; exact List.find?_some h) db.apps a0 h

/- Concrete fixtures used by witnesses and counterexamples. -/

def jobAcme : Job :=
  { id := 5, user_id := 10, company := "Acme", title := "Engineer" }

def appSaved : Application :=
  { id := 1, user_id := 10, job_id := 5, status := some "saved",
    applied_date := none, interview_date := none, offer_date := none,
    rejected_date := none, resume_id := none, rejection_reason := none,
    offer_details := none, notes := none, created_at := 0, updated_at := 0 }

def appOffer : Application := { appSaved with status := some "offer" }

def appApplied : Application := { appSaved with status := some "applied" }

def offerExisting : Offer :=
  { id := 7, user_id := 10, application_id := 1, company_name := "Acme",
    position := "Engineer", salary := 150000, currency := "USD",
    salary_frequency := "monthly", position_type := none, location := none,
    start_date := 40, offer_date := 40, deadline := 47, benefits := none,
    notes := none, status := "pending", negotiation_history := none,
    created_at := 40, updated_at := 40 }

def uToOffer : ApplicationUpdate := { status := some "offer" }

def uRejected : ApplicationUpdate := { status := some "rejected" }

def dbSaved : DB := { apps := [appSaved], jobs := [jobAcme], offers := [], nextOfferId := 1 }

def dbSavedNoJob : DB := { apps := [appSaved], jobs := [], offers := [], nextOfferId := 1 }

def dbOfferRow : DB :=
  { apps := [appOffer], jobs := [jobAcme], offers := [offerExisting], nextOfferId := 8 }

def dbSavedWithOffer : DB :=
  { apps := [appSaved], jobs := [jobAcme], offers := [offerExisting], nextOfferId := 8 }

/-- C8: when no Application row with the given id is owned by the calling
user, update_application fails with NotFound regardless of the patch, and
the store is unchanged. -/
theorem spec_c8_unowned_update_notfound (now today appId uid : Nat)
    (u : ApplicationUpdate) (db : DB)
    (h : targetApp db appId uid = none) :
    updateApplication now today appId uid u db = Except.error "Application not found" ∧
    updateApplicationRun now today appId uid u db = db := by
  have h1 : updateApplication now today appId uid u db =
      Except.error "Application not found" := by
    unfold updateApplication
    rw [h]
  refine ⟨h1, ?_⟩
  unfold updateApplicationRun
  rw [h1]

/-- Witness for C8: the application with id 1 exists but belongs to user 10,
and user 99 calls the update. -/
theorem spec_c8_unowned_update_notfound_witness :
    targetApp dbSaved 1 99 = none ∧
    updateApplication 100 50 1 99 {} dbSaved = Except.error "Application not found" ∧
    updateApplicationRun 100 50 1 99 {} dbSaved = dbSaved :=
  ⟨by decide,
   (spec_c8_unowned_update_notfound 100 50 1 99 {} dbSaved (by decide)).1,
   (spec_c8_unowned_update_notfound 100 50 1 99 {} dbSaved (by decide)).2⟩

/-- C7: an update that moves an Application whose stored status is "offer"
to any other status leaves the offers table entirely unchanged: the
existing Offer row keeps every field and is not deleted. -/
theorem spec_c7_away_from_offer_preserves_offers (now today appId uid : Nat)
    (u : ApplicationUpdate) (db : DB) (a0 : Application) (s : String)
    (h : targetApp db appId uid = some a0)
    (hold : oldStatusOf a0 = some "offer")
    ( _hs : u.status = some s)
    ( _hlow : pyLower s ≠ "offer") :
    ∃ db2, updateApplication now today appId uid u db = Except.ok db2 ∧
      db2.offers = db.offers ∧
      (updateApplicationRun now today appId uid u db).offers = db.offers := by
  have h1 : updateApplication now today appId uid u db =
      Except.ok { db with apps := replaceFirst (appPred appId uid) (applyUpdate now (newStatusOf u a0) u a0) db.apps } := by
    simp only [updateApplication, h]
    rw [if_neg (fun hc => hc.2 hold)]
  refine ⟨_, h1, rfl, ?_⟩
  unfold updateApplicationRun
  rw [h1]

/-- Witness for C7: application 1 sits in "offer" status with an existing
Offer row; the patch moves it to "rejected". -/
theorem spec_c7_away_from_offer_preserves_offers_witness :
    targetApp dbOfferRow 1 10 = some appOffer ∧
    oldStatusOf appOffer = some "offer" ∧
    ∃ db2, updateApplication 100 50 1 10 uRejected dbOfferRow = Except.ok db2 ∧
      db2.offers = dbOfferRow.offers ∧
      (updateApplicationRun 100 50 1 10 uRejected dbOfferRow).offers = dbOfferRow.offers :=
  ⟨by decide, by decide,
   spec_c7_away_from_offer_preserves_offers 100 50 1 10 uRejected dbOfferRow appOffer "rejected"
     (by decide) (by decide) (by decide) (by decide)⟩

/-- C3: when a call transitions an Application to "offer" but the
Application's job_id no longer resolves to a Job, the handler raises
NotFound before any commit, and the whole unit of work rolls back: the
store is exactly what it was before the call. -/
theorem spec_c3_job_missing_rolls_back (now today appId uid : Nat)
    (u : ApplicationUpdate) (db : DB) (a0 : Application)
    (h : targetApp db appId uid = some a0)
    (hnew : newStatusOf u a0 = some "offer")
    (hold : oldStatusOf a0 ≠ some "offer")
    (hjob : findJob db a0.job_id = none) :
    updateApplication now today appId uid u db = Except.error "Job not found" ∧
    updateApplicationRun now today appId uid u db = db := by
  have h1 : updateApplication now today appId uid u db = Except.error "Job not found" := by
    simp only [updateApplication, h]
    rw [if_pos ⟨hnew, hold⟩, hjob]
  refine ⟨h1, ?_⟩
  unfold updateApplicationRun
  rw [h1]

/-- Witness for C3: application 1 (status "saved", job_id 5) transitions to
"offer" while the jobs table holds no job with id 5. -/
theorem spec_c3_job_missing_rolls_back_witness :
    targetApp dbSavedNoJob 1 10 = some appSaved ∧
    newStatusOf uToOffer appSaved = some "offer" ∧
    oldStatusOf appSaved = some "saved" ∧
    findJob dbSavedNoJob appSaved.job_id = none ∧
    updateApplication 100 50 1 10 uToOffer dbSavedNoJob = Except.error "Job not found" ∧
    updateApplicationRun 100 50 1 10 uToOffer dbSavedNoJob = dbSavedNoJob :=
  ⟨by decide, by decide, by decide, by decide,
   (spec_c3_job_missing_rolls_back 100 50 1 10 uToOffer dbSavedNoJob appSaved
     (by decide) (by decide) (by decide) (by decide)).1,
   (spec_c3_job_missing_rolls_back 100 50 1 10 uToOffer dbSavedNoJob appSaved
     (by decide) (by decide) (by decide) (by decide)).2⟩

/-- C10: update_application never modifies the Application's offer_date
column: whatever the patch contains (including a supplied offer_date,
which the handler never reads), the stored row for that application keeps
its previous offer_date. -/
theorem spec_c10_application_offer_date_frame (now today appId uid : Nat)
    (u : ApplicationUpdate) (db : DB) (a0 : Application)
    (h : targetApp db appId uid = some a0) :
    ∃ a2, targetApp (updateApplicationRun now today appId uid u db) appId uid = some a2 ∧
      a2.offer_date = a0.offer_date := by
  rcases targetApp_after_run now today appId uid u db a0 h with h2 | h2
  · exact ⟨a0, h2, rfl⟩
  · exact ⟨applyUpdate now (newStatusOf u a0) u a0, h2, rfl⟩

/-- Witness for C10: the patch supplies offer_date 77 (and a status change),
yet the stored application keeps offer_date none. -/
theorem spec_c10_application_offer_date_frame_witness :
    targetApp dbSaved 1 10 = some appSaved ∧
    ∃ a2, targetApp (updateApplicationRun 100 50 1 10
        { status := some "applied", offer_date := some 77 } dbSaved) 1 10 = some a2 ∧
      a2.offer_date = appSaved.offer_date :=
  ⟨by decide,
   spec_c10_application_offer_date_frame 100 50 1 10
     { status := some "applied", offer_date := some 77 } dbSaved appSaved (by decide)⟩

/- Projection lemmas for the in-memory row mutation. -/

theorem applyUpdate_status (now : Nat) (ns : Option String) (u : ApplicationUpdate) (a : Application) :
    (applyUpdate now ns u a).status = if u.status.isSome then ns else a.status := rfl

theorem applyUpdate_updated_at (now : Nat) (ns : Option String) (u : ApplicationUpdate) (a : Application) :
    (applyUpdate now ns u a).updated_at = now := rfl

theorem applyUpdate_applied_date (now : Nat) (ns : Option String) (u : ApplicationUpdate) (a : Application) :
    (applyUpdate now ns u a).applied_date =
      if statusReq u = some "applied" ∧ (applyAppFields ns u a).applied_date = none
      then some now else (applyAppFields ns u a).applied_date := rfl

theorem applyUpdate_interview_date (now : Nat) (ns : Option String) (u : ApplicationUpdate) (a : Application) :
    (applyUpdate now ns u a).interview_date =
      if statusReq u = some "interview" ∧ (applyAppFields ns u a).interview_date = none
      then some now else (applyAppFields ns u a).interview_date := rfl

theorem applyUpdate_rejected_date (now : Nat) (ns : Option String) (u : ApplicationUpdate) (a : Application) :
    (applyUpdate now ns u a).rejected_date =
      if statusReq u = some "rejected" ∧ (applyAppFields ns u a).rejected_date = none
      then some now else (applyAppFields ns u a).rejected_date := rfl

theorem applyAppFields_applied_date (ns : Option String) (u : ApplicationUpdate) (a : Application) :
    (applyAppFields ns u a).applied_date =
      match u.applied_date with
      | some v => some v
      | none => a.applied_date := rfl

theorem applyAppFields_interview_date (ns : Option String) (u : ApplicationUpdate) (a : Application) :
    (applyAppFields ns u a).interview_date =
      match u.interview_date with
      | some v => some v
      | none => a.interview_date := rfl

theorem applyAppFields_rejected_date (ns : Option String) (u : ApplicationUpdate) (a : Application) :
    (applyAppFields ns u a).rejected_date =
      match u.rejected_date with
      | some v => some v
      | none => a.rejected_date := rfl

theorem applyUpdate_notes (now : Nat) (ns : Option String) (u : ApplicationUpdate) (a : Application) :
    (applyUpdate now ns u a).notes =
      match u.notes with
      | some v => some v
      | none => a.notes := rfl

theorem applyUpdate_rejection_reason (now : Nat) (ns : Option String) (u : ApplicationUpdate) (a : Application) :
    (applyUpdate now ns u a).rejection_reason =
      match u.rejection_reason with
      | some v => some v
      | none => a.rejection_reason := rfl

theorem applyUpdate_resume_id (now : Nat) (ns : Option String) (u : ApplicationUpdate) (a : Application) :
    (applyUpdate now ns u a).resume_id =
      match u.resume_id with
      | some v => some v
      | none => a.resume_id := rfl

/-- After a successful update, the stored row for the target id and owner is
the mutated row. -/
theorem targetApp_ok (now today appId uid : Nat) (u : ApplicationUpdate) (db : DB)
    (a0 : Application) (db2 : DB)
    (h : targetApp db appId uid = some a0)
    (hok : updateApplication now today appId uid u db = Except.ok db2) :
    targetApp db2 appId uid = some (applyUpdate now (newStatusOf u a0) u a0) := by
  have happs := update_ok_apps now today appId uid u db a0 db2 h hok
  unfold targetApp
  rw [happs]
  exact find?_replaceFirst (appPred appId uid) (applyUpdate now (newStatusOf u a0) u a0)
    (by rw [appPred_applyUpdate]; exact List.find?_some h) db.apps a0 h

/-- C2: the lifecycle timestamps applied_date, interview_date and
rejected_date, once non-null, are never changed by an update whose patch
does not supply that specific field; in particular the auto-stamping never
overwrites an already-set field. -/
theorem spec_c2_lifecycle_dates_write_once (now today appId uid : Nat)
    (u : ApplicationUpdate) (db : DB) (a0 : Application)
    (h : targetApp db appId uid = some a0) :
    ∃ a2, targetApp (updateApplicationRun now today appId uid u db) appId uid = some a2 ∧
      (u.applied_date = none → a0.applied_date.isSome → a2.applied_date = a0.applied_date) ∧
      (u.interview_date = none → a0.interview_date.isSome → a2.interview_date = a0.interview_date) ∧
      (u.rejected_date = none → a0.rejected_date.isSome → a2.rejected_date = a0.rejected_date) := by
  rcases targetApp_after_run now today appId uid u db a0 h with h2 | h2
  · exact ⟨a0, h2, fun _ _ => rfl, fun _ _ => rfl, fun _ _ => rfl⟩
  · refine ⟨_, h2, ?_, ?_, ?_⟩
    · intro hu hset
      rw [applyUpdate_applied_date, applyAppFields_applied_date, hu]
      rcases Option.isSome_iff_exists.mp hset with ⟨d, hd⟩
      simp [hd]
    · intro hu hset
      rw [applyUpdate_interview_date, applyAppFields_interview_date, hu]
      rcases Option.isSome_iff_exists.mp hset with ⟨d, hd⟩
      simp [hd]
    · intro hu hset
      rw [applyUpdate_rejected_date, applyAppFields_rejected_date, hu]
      rcases Option.isSome_iff_exists.mp hset with ⟨d, hd⟩
      simp [hd]

def appAppliedSet : Application := { appApplied with applied_date := some 20 }

def dbAppliedSet : DB :=
  { apps := [appAppliedSet], jobs := [jobAcme], offers := [], nextOfferId := 1 }

/-- Witness for C2: application 1 already has applied_date 20; a patch that
moves it to "rejected" (supplying no dates) leaves applied_date at 20. -/
theorem spec_c2_lifecycle_dates_write_once_witness :
    targetApp dbAppliedSet 1 10 = some appAppliedSet ∧
    ∃ a2, targetApp (updateApplicationRun 100 50 1 10 uRejected dbAppliedSet) 1 10 = some a2 ∧
      (uRejected.applied_date = none → appAppliedSet.applied_date.isSome →
        a2.applied_date = appAppliedSet.applied_date) ∧
      (uRejected.interview_date = none → appAppliedSet.interview_date.isSome →
        a2.interview_date = appAppliedSet.interview_date) ∧
      (uRejected.rejected_date = none → appAppliedSet.rejected_date.isSome →
        a2.rejected_date = appAppliedSet.rejected_date) :=
  ⟨by decide,
   spec_c2_lifecycle_dates_write_once 100 50 1 10 uRejected dbAppliedSet appAppliedSet (by decide)⟩

def uBenefits : ApplicationUpdate := { offer_benefits := some "[\x22Health insurance\x22]" }

/-- C4 counterexample: application 1 is already in "offer" status with an
existing Offer row whose benefits is none; the patch carries only
offer_benefits.  The claim says the existing Offer's benefits field is
updated in place, but the handler's offer block is guarded by a transition
into "offer" (old status not "offer"), so it does not run: the Offer row is
returned bit-for-bit unchanged, benefits still none. -/
theorem spec_c4_counterexample :
    uBenefits.offer_benefits = some "[\x22Health insurance\x22]" ∧
    uBenefits.status = none ∧
    oldStatusOf appOffer = some "offer" ∧
    offerExisting.benefits = none ∧
    (updateApplicationRun 100 50 1 10 uBenefits dbOfferRow).offers = [offerExisting] := by
  decide

/-- C4 amended: against an Application already in "offer" status, a patch
containing only offer-detail fields (no status) leaves the existing Offer
row entirely untouched (the offer upsert only runs on a transition into
"offer"), creates no new Offer row, and leaves Application.status
unchanged. -/
theorem spec_c4_benefits_only_patch_amended (now today appId uid : Nat)
    (u : ApplicationUpdate) (db : DB) (a0 : Application)
    (h : targetApp db appId uid = some a0)
    (hold : oldStatusOf a0 = some "offer")
    (hst : u.status = none) :
    ∃ db2, updateApplication now today appId uid u db = Except.ok db2 ∧
      db2.offers = db.offers ∧
      ∃ a2, targetApp db2 appId uid = some a2 ∧ a2.status = a0.status := by
  have h1 : updateApplication now today appId uid u db =
      Except.ok { db with apps := replaceFirst (appPred appId uid) (applyUpdate now (newStatusOf u a0) u a0) db.apps } := by
    simp only [updateApplication, h]
    rw [if_neg (fun hc => hc.2 hold)]
  refine ⟨_, h1, rfl, applyUpdate now (newStatusOf u a0) u a0,
    targetApp_ok now today appId uid u db a0 _ h h1, ?_⟩
  rw [applyUpdate_status, hst]
  rfl

/-- Witness for C4 amended: the offer_benefits-only patch against the
"offer"-status application with an existing Offer row. -/
theorem spec_c4_benefits_only_patch_amended_witness :
    targetApp dbOfferRow 1 10 = some appOffer ∧
    oldStatusOf appOffer = some "offer" ∧
    uBenefits.status = none ∧
    ∃ db2, updateApplication 100 50 1 10 uBenefits dbOfferRow = Except.ok db2 ∧
      db2.offers = dbOfferRow.offers ∧
      ∃ a2, targetApp db2 1 10 = some a2 ∧ a2.status = appOffer.status :=
  ⟨by decide, by decide, by decide,
   spec_c4_benefits_only_patch_amended 100 50 1 10 uBenefits dbOfferRow appOffer
     (by decide) (by decide) (by decide)⟩

def uNotes : ApplicationUpdate := { notes := some "followed up" }

def dbAppliedUnset : DB :=
  { apps := [appApplied], jobs := [jobAcme], offers := [], nextOfferId := 1 }

/-- C6 counterexample: application 1 is already in status "applied" with
applied_date unset; a patch that supplies only notes (no status field)
leaves the resulting status "applied" with applied_date still none, though
the claim requires applied_date to be stamped whenever the resulting status
is "applied" and the field is unset.  The handler stamps only when the
patch itself carries a truthy status, and never consults the previous
stored status. -/
theorem spec_c6_counterexample :
    uNotes.status = none ∧
    appApplied.status = some "applied" ∧
    appApplied.applied_date = none ∧
    (updateApplicationRun 100 50 1 10 uNotes dbAppliedUnset).apps =
      [{ appApplied with notes := some "followed up", updated_at := 100 }] ∧
    ({ appApplied with notes := some "followed up", updated_at := 100 } : Application).status =
      some "applied" ∧
    ({ appApplied with notes := some "followed up", updated_at := 100 } : Application).applied_date =
      none := by
  decide

/-- C6 amended: the auto-stamp for applied_date (and likewise
interview_date, rejected_date) fires exactly when the patch itself supplies
a non-empty status whose lowercase form is the corresponding literal and
the field is unset at that point; the previous stored status is never
consulted, so an update that omits status never stamps (even if the
application already sits in that status), and a patch restating the current
status stamps when the field is unset. -/
theorem spec_c6_stamping_amended (now today appId uid : Nat) (u : ApplicationUpdate)
    (db : DB) (a0 : Application) (db2 : DB)
    (h : targetApp db appId uid = some a0)
    (hok : updateApplication now today appId uid u db = Except.ok db2) :
    ∃ a2, targetApp db2 appId uid = some a2 ∧
      (∀ s, u.status = some s → s ≠ "" → pyLower s = "applied" →
        u.applied_date = none → a0.applied_date = none → a2.applied_date = some now) ∧
      (u.status = none → u.applied_date = none → a2.applied_date = a0.applied_date) ∧
      (∀ s, u.status = some s → pyLower s ≠ "applied" →
        u.applied_date = none → a2.applied_date = a0.applied_date) ∧
      (∀ s, u.status = some s → s ≠ "" → pyLower s = "interview" →
        u.interview_date = none → a0.interview_date = none → a2.interview_date = some now) ∧
      (u.status = none → u.interview_date = none → a2.interview_date = a0.interview_date) ∧
      (∀ s, u.status = some s → pyLower s ≠ "interview" →
        u.interview_date = none → a2.interview_date = a0.interview_date) ∧
      (∀ s, u.status = some s → s ≠ "" → pyLower s = "rejected" →
        u.rejected_date = none → a0.rejected_date = none → a2.rejected_date = some now) ∧
      (u.status = none → u.rejected_date = none → a2.rejected_date = a0.rejected_date) ∧
      (∀ s, u.status = some s → pyLower s ≠ "rejected" →
        u.rejected_date = none → a2.rejected_date = a0.rejected_date) := by
  refine ⟨_, targetApp_ok now today appId uid u db a0 db2 h hok, ?_, ?_, ?_, ?_, ?_, ?_, ?_, ?_, ?_⟩
  · intro s hs hne hl hu ha
    have hsr : statusReq u = some "applied" := by simp [statusReq, hs, hne, hl]
    rw [applyUpdate_applied_date, applyAppFields_applied_date, hu, hsr, ha]
    simp
  · intro hst hu
    have hsr : statusReq u = none := by simp [statusReq, hst]
    rw [applyUpdate_applied_date, applyAppFields_applied_date, hu, hsr]
    simp
  · intro s hs hl hu
    have hsr : statusReq u ≠ some "applied" := by
      simp only [statusReq, hs]
      by_cases he : s = ""
      · simp [he]
      · simp [he, hl]
    rw [applyUpdate_applied_date, applyAppFields_applied_date, hu]
    simp [hsr]
  · intro s hs hne hl hu ha
    have hsr : statusReq u = some "interview" := by simp [statusReq, hs, hne, hl]
    rw [applyUpdate_interview_date, applyAppFields_interview_date, hu, hsr, ha]
    simp
  · intro hst hu
    have hsr : statusReq u = none := by simp [statusReq, hst]
    rw [applyUpdate_interview_date, applyAppFields_interview_date, hu, hsr]
    simp
  · intro s hs hl hu
    have hsr : statusReq u ≠ some "interview" := by
      simp only [statusReq, hs]
      by_cases he : s = ""
      · simp [he]
      · simp [he, hl]
    rw [applyUpdate_interview_date, applyAppFields_interview_date, hu]
    simp [hsr]
  · intro s hs hne hl hu ha
    have hsr : statusReq u = some "rejected" := by simp [statusReq, hs, hne, hl]
    rw [applyUpdate_rejected_date, applyAppFields_rejected_date, hu, hsr, ha]
    simp
  · intro hst hu
    have hsr : statusReq u = none := by simp [statusReq, hst]
    rw [applyUpdate_rejected_date, applyAppFields_rejected_date, hu, hsr]
    simp
  · intro s hs hl hu
    have hsr : statusReq u ≠ some "rejected" := by
      simp only [statusReq, hs]
      by_cases he : s = ""
      · simp [he]
      · simp [he, hl]
    rw [applyUpdate_rejected_date, applyAppFields_rejected_date, hu]
    simp [hsr]

def uApplied : ApplicationUpdate := { status := some "applied" }

/-- Witness for C6 amended: application 1 in status "saved" with no dates
set receives the patch with status "applied". -/
theorem spec_c6_stamping_amended_witness :
    targetApp dbSaved 1 10 = some appSaved ∧
    updateApplication 100 50 1 10 uApplied dbSaved =
      Except.ok (updateApplicationRun 100 50 1 10 uApplied dbSaved) ∧
    ∃ a2, targetApp (updateApplicationRun 100 50 1 10 uApplied dbSaved) 1 10 = some a2 ∧
      (∀ s, uApplied.status = some s → s ≠ "" → pyLower s = "applied" →
        uApplied.applied_date = none → appSaved.applied_date = none → a2.applied_date = some 100) ∧
      (uApplied.status = none → uApplied.applied_date = none → a2.applied_date = appSaved.applied_date) ∧
      (∀ s, uApplied.status = some s → pyLower s ≠ "applied" →
        uApplied.applied_date = none → a2.applied_date = appSaved.applied_date) ∧
      (∀ s, uApplied.status = some s → s ≠ "" → pyLower s = "interview" →
        uApplied.interview_date = none → appSaved.interview_date = none → a2.interview_date = some 100) ∧
      (uApplied.status = none → uApplied.interview_date = none → a2.interview_date = appSaved.interview_date) ∧
      (∀ s, uApplied.status = some s → pyLower s ≠ "interview" →
        uApplied.interview_date = none → a2.interview_date = appSaved.interview_date) ∧
      (∀ s, uApplied.status = some s → s ≠ "" → pyLower s = "rejected" →
        uApplied.rejected_date = none → appSaved.rejected_date = none → a2.rejected_date = some 100) ∧
      (uApplied.status = none → uApplied.rejected_date = none → a2.rejected_date = appSaved.rejected_date) ∧
      (∀ s, uApplied.status = some s → pyLower s ≠ "rejected" →
        uApplied.rejected_date = none → a2.rejected_date = appSaved.rejected_date) :=
  ⟨by decide, by decide,
   spec_c6_stamping_amended 100 50 1 10 uApplied dbSaved appSaved
     (updateApplicationRun 100 50 1 10 uApplied dbSaved) (by decide) (by decide)⟩

def appKeepNotes : Application := { appSaved with notes := some "keep" }

def dbKeepNotes : DB :=
  { apps := [appKeepNotes], jobs := [jobAcme], offers := [], nextOfferId := 1 }

def ujC5 : ApplicationUpdateJson := { status := JField.val "Applied", notes := JField.null }

/-- C5 counterexample: the patch explicitly supplies notes as null and
status "Applied" against an application whose notes is "keep".  The claim
requires the explicit null to overwrite notes with null and status to be
written verbatim; the handler keeps notes = "keep" (pydantic collapses the
explicit null to None and the `is not None` guard skips it) and stores the
status lowercased as "applied", and additionally stamps the omitted
applied_date. -/
theorem spec_c5_counterexample :
    ujC5.notes = JField.null ∧
    ujC5.status = JField.val "Applied" ∧
    appKeepNotes.notes = some "keep" ∧
    appKeepNotes.applied_date = none ∧
    (updateApplicationRun 100 50 1 10 (parseUpdate ujC5) dbKeepNotes).apps =
      [{ appKeepNotes with status := some "applied", applied_date := some 100, updated_at := 100 }] ∧
    ({ appKeepNotes with status := some "applied", applied_date := some 100, updated_at := 100 } : Application).notes =
      some "keep" := by
  decide

/-- C5 amended: every scalar field supplied with a non-null value is written
onto the Application, with two status caveats: a non-empty status is stored
normalized to lowercase rather than verbatim, and a supplied empty-string
status (falsy in Python, yet `is not None`) writes back the lowercased
previous status — `None` if the previous status was empty or absent — not
the supplied value.  A field omitted or explicitly supplied as null keeps
its prior value (the handler cannot distinguish the two, so null never
overwrites), except that the auto-stamp of C6 may set a previously-unset
timestamp and updated_at is always refreshed. -/
theorem spec_c5_partial_update_amended (now today appId uid : Nat)
    (j : ApplicationUpdateJson) (db : DB) (a0 : Application) (db2 : DB)
    (h : targetApp db appId uid = some a0)
    (hok : updateApplication now today appId uid (parseUpdate j) db = Except.ok db2) :
    ∃ a2, targetApp db2 appId uid = some a2 ∧
      (∀ v, j.notes = JField.val v → a2.notes = some v) ∧
      (j.notes = JField.omitted ∨ j.notes = JField.null → a2.notes = a0.notes) ∧
      (∀ v, j.rejection_reason = JField.val v → a2.rejection_reason = some v) ∧
      (j.rejection_reason = JField.omitted ∨ j.rejection_reason = JField.null →
        a2.rejection_reason = a0.rejection_reason) ∧
      (∀ v, j.resume_id = JField.val v → a2.resume_id = some v) ∧
      (j.resume_id = JField.omitted ∨ j.resume_id = JField.null → a2.resume_id = a0.resume_id) ∧
      (∀ v, j.applied_date = JField.val v → a2.applied_date = some v) ∧
      (∀ v, j.interview_date = JField.val v → a2.interview_date = some v) ∧
      (∀ v, j.rejected_date = JField.val v → a2.rejected_date = some v) ∧
      (∀ s, j.status = JField.val s → s ≠ "" → a2.status = some (pyLower s)) ∧
      (j.status = JField.val "" → a2.status = oldStatusOf a0) ∧
      (j.status = JField.omitted ∨ j.status = JField.null → a2.status = a0.status) ∧
      a2.updated_at = now := by
  refine ⟨_, targetApp_ok now today appId uid (parseUpdate j) db a0 db2 h hok,
    ?_, ?_, ?_, ?_, ?_, ?_, ?_, ?_, ?_, ?_, ?_, ?_, ?_⟩
  · intro v hv
    rw [applyUpdate_notes]
    simp [parseUpdate, JField.toOpt, hv]
  · intro hv
    rw [applyUpdate_notes]
    rcases hv with hv | hv <;> simp [parseUpdate, JField.toOpt, hv]
  · intro v hv
    rw [applyUpdate_rejection_reason]
    simp [parseUpdate, JField.toOpt, hv]
  · intro hv
    rw [applyUpdate_rejection_reason]
    rcases hv with hv | hv <;> simp [parseUpdate, JField.toOpt, hv]
  · intro v hv
    rw [applyUpdate_resume_id]
    simp [parseUpdate, JField.toOpt, hv]
  · intro hv
    rw [applyUpdate_resume_id]
    rcases hv with hv | hv <;> simp [parseUpdate, JField.toOpt, hv]
  · intro v hv
    rw [applyUpdate_applied_date, applyAppFields_applied_date]
    simp [parseUpdate, JField.toOpt, hv]
  · intro v hv
    rw [applyUpdate_interview_date, applyAppFields_interview_date]
    simp [parseUpdate, JField.toOpt, hv]
  · intro v hv
    rw [applyUpdate_rejected_date, applyAppFields_rejected_date]
    simp [parseUpdate, JField.toOpt, hv]
  · intro s hv hne
    rw [applyUpdate_status]
    simp [parseUpdate, JField.toOpt, hv, newStatusOf, statusReq, hne]
  · intro hv
    rw [applyUpdate_status]
    simp [parseUpdate, JField.toOpt, hv, newStatusOf, statusReq]
  · intro hv
    rw [applyUpdate_status]
    rcases hv with hv | hv <;> simp [parseUpdate, JField.toOpt, hv]
  · rw [applyUpdate_updated_at]

def ujMixed : ApplicationUpdateJson :=
  { status := JField.val "Interview", notes := JField.val "call prep",
    applied_date := JField.val 30, rejection_reason := JField.null }

/-- Witness for C5 amended: a patch mixing a supplied status, a supplied
note, a supplied applied_date, an explicit null and omitted fields, against
application 1 in status "saved". -/
theorem spec_c5_partial_update_amended_witness :
    targetApp dbSaved 1 10 = some appSaved ∧
    updateApplication 100 50 1 10 (parseUpdate ujMixed) dbSaved =
      Except.ok (updateApplicationRun 100 50 1 10 (parseUpdate ujMixed) dbSaved) ∧
    ∃ a2, targetApp (updateApplicationRun 100 50 1 10 (parseUpdate ujMixed) dbSaved) 1 10 = some a2 ∧
      (∀ v, ujMixed.notes = JField.val v → a2.notes = some v) ∧
      (ujMixed.notes = JField.omitted ∨ ujMixed.notes = JField.null → a2.notes = appSaved.notes) ∧
      (∀ v, ujMixed.rejection_reason = JField.val v → a2.rejection_reason = some v) ∧
      (ujMixed.rejection_reason = JField.omitted ∨ ujMixed.rejection_reason = JField.null →
        a2.rejection_reason = appSaved.rejection_reason) ∧
      (∀ v, ujMixed.resume_id = JField.val v → a2.resume_id = some v) ∧
      (ujMixed.resume_id = JField.omitted ∨ ujMixed.resume_id = JField.null →
        a2.resume_id = appSaved.resume_id) ∧
      (∀ v, ujMixed.applied_date = JField.val v → a2.applied_date = some v) ∧
      (∀ v, ujMixed.interview_date = JField.val v → a2.interview_date = some v) ∧
      (∀ v, ujMixed.rejected_date = JField.val v → a2.rejected_date = some v) ∧
      (∀ s, ujMixed.status = JField.val s → s ≠ "" → a2.status = some (pyLower s)) ∧
      (ujMixed.status = JField.val "" → a2.status = oldStatusOf appSaved) ∧
      (ujMixed.status = JField.omitted ∨ ujMixed.status = JField.null → a2.status = appSaved.status) ∧
      a2.updated_at = 100 :=
  ⟨by decide, by decide,
   spec_c5_partial_update_amended 100 50 1 10 ujMixed dbSaved appSaved
     (updateApplicationRun 100 50 1 10 (parseUpdate ujMixed) dbSaved) (by decide) (by decide)⟩

def uOfferZero : ApplicationUpdate := { status := some "offer", offer_salary := some 0 }

/-- C9 counterexample: application 1 transitions "saved" to "offer" while an
Offer row with salary 150000 already exists, and the patch supplies
offer_salary = 0 (present, non-null).  The claim requires every present
offer-detail field to be applied, so salary should become 0; the handler
guards each assignment by Python truthiness (`if app_update.offer_salary:`),
so the falsy 0 is skipped and salary stays 150000 (only updated_at moves). -/
theorem spec_c9_counterexample :
    uOfferZero.offer_salary = some 0 ∧
    offerExisting.salary = 150000 ∧
    ((150000 : Int) = 0 → False) ∧
    oldStatusOf appSaved = some "saved" ∧
    newStatusOf uOfferZero appSaved = some "offer" ∧
    (updateApplicationRun 100 50 1 10 uOfferZero dbSavedWithOffer).offers =
      [{ offerExisting with updated_at := 100 }] := by
  decide

/-- C9 amended: on a transition into "offer" with an existing Offer row,
exactly the offer-detail fields supplied with truthy values (non-zero
salary, non-empty strings; any supplied date) are applied onto the existing
Offer; fields missing or supplied falsy (null, 0, empty string) leave the
stored value unchanged; every other Offer column is untouched and
updated_at is bumped to the current time. -/
theorem spec_c9_offer_partial_update_amended (now today appId uid : Nat)
    (u : ApplicationUpdate) (db : DB) (a0 : Application) (job : Job) (off : Offer)
    (h : targetApp db appId uid = some a0)
    (hnew : newStatusOf u a0 = some "offer")
    (hold : oldStatusOf a0 ≠ some "offer")
    (hjob : findJob db a0.job_id = some job)
    (hoff : findOffer db appId = some off) :
    ∃ db2, updateApplication now today appId uid u db = Except.ok db2 ∧
      db2.offers.length = db.offers.length ∧
      ∃ o2, findOffer db2 appId = some o2 ∧
        o2.salary = (match u.offer_salary with
          | some v => if v = 0 then off.salary else v
          | none => off.salary) ∧
        o2.currency = (match u.offer_currency with
          | some s => if s = "" then off.currency else s
          | none => off.currency) ∧
        o2.salary_frequency = (match u.offer_salary_frequency with
          | some s => if s = "" then off.salary_frequency else s
          | none => off.salary_frequency) ∧
        o2.position_type = (match u.offer_position_type with
          | some s => if s = "" then off.position_type else some s
          | none => off.position_type) ∧
        o2.location = (match u.offer_location with
          | some s => if s = "" then off.location else some s
          | none => off.location) ∧
        o2.start_date = (match u.offer_start_date with
          | some v => v
          | none => off.start_date) ∧
        o2.deadline = (match u.offer_deadline with
          | some v => v
          | none => off.deadline) ∧
        o2.notes = (match u.offer_notes with
          | some s => if s = "" then off.notes else some s
          | none => off.notes) ∧
        o2.benefits = (match u.offer_benefits with
          | some s => if s = "" then off.benefits else some s
          | none => off.benefits) ∧
        o2.company_name = off.company_name ∧
        o2.position = off.position ∧
        o2.offer_date = off.offer_date ∧
        o2.status = off.status ∧
        o2.created_at = off.created_at ∧
        o2.updated_at = now := by
  have h1 : updateApplication now today appId uid u db =
      Except.ok
        { apps := replaceFirst (appPred appId uid) (applyUpdate now (newStatusOf u a0) u a0) db.apps
          jobs := db.jobs
          offers := replaceFirst (fun o => o.application_id == appId) (applyOfferFields now u off) db.offers
          nextOfferId := db.nextOfferId } := by
    simp only [updateApplication, h]
    rw [if_pos ⟨hnew, hold⟩, hjob, hoff]
  refine ⟨_, h1, replaceFirst_length _ _ _, applyOfferFields now u off, ?_,
    rfl, rfl, rfl, rfl, rfl, rfl, rfl, rfl, rfl, rfl, rfl, rfl, rfl, rfl, rfl⟩
  unfold findOffer
  have hoff2 : List.find? (fun o => o.application_id == appId) db.offers = some off := hoff
  have hp := List.find?_some hoff2
  exact find?_replaceFirst (fun o => o.application_id == appId) (applyOfferFields now u off)
    hp db.offers off hoff2

def uW9 : ApplicationUpdate :=
  { status := some "offer", offer_salary := some 200000, offer_currency := some "EUR" }

/-- Witness for C9 amended: a second transition into "offer" supplying a
non-zero salary and a currency against the pre-existing Offer row. -/
theorem spec_c9_offer_partial_update_amended_witness :
    targetApp dbSavedWithOffer 1 10 = some appSaved ∧
    newStatusOf uW9 appSaved = some "offer" ∧
    oldStatusOf appSaved = some "saved" ∧
    findJob dbSavedWithOffer appSaved.job_id = some jobAcme ∧
    findOffer dbSavedWithOffer 1 = some offerExisting ∧
    ∃ db2, updateApplication 100 50 1 10 uW9 dbSavedWithOffer = Except.ok db2 ∧
      db2.offers.length = dbSavedWithOffer.offers.length ∧
      ∃ o2, findOffer db2 1 = some o2 ∧
        o2.salary = (match uW9.offer_salary with
          | some v => if v = 0 then offerExisting.salary else v
          | none => offerExisting.salary) ∧
        o2.currency = (match uW9.offer_currency with
          | some s => if s = "" then offerExisting.currency else s
          | none => offerExisting.currency) ∧
        o2.salary_frequency = (match uW9.offer_salary_frequency with
          | some s => if s = "" then offerExisting.salary_frequency else s
          | none => offerExisting.salary_frequency) ∧
        o2.position_type = (match uW9.offer_position_type with
          | some s => if s = "" then offerExisting.position_type else some s
          | none => offerExisting.position_type) ∧
        o2.location = (match uW9.offer_location with
          | some s => if s = "" then offerExisting.location else some s
          | none => offerExisting.location) ∧
        o2.start_date = (match uW9.offer_start_date with
          | some v => v
          | none => offerExisting.start_date) ∧
        o2.deadline = (match uW9.offer_deadline with
          | some v => v
          | none => offerExisting.deadline) ∧
        o2.notes = (match uW9.offer_notes with
          | some s => if s = "" then offerExisting.notes else some s
          | none => offerExisting.notes) ∧
        o2.benefits = (match uW9.offer_benefits with
          | some s => if s = "" then offerExisting.benefits else some s
          | none => offerExisting.benefits) ∧
        o2.company_name = offerExisting.company_name ∧
        o2.position = offerExisting.position ∧
        o2.offer_date = offerExisting.offer_date ∧
        o2.status = offerExisting.status ∧
        o2.created_at = offerExisting.created_at ∧
        o2.updated_at = 100 :=
  ⟨by decide, by decide, by decide, by decide, by decide,
   spec_c9_offer_partial_update_amended 100 50 1 10 uW9 dbSavedWithOffer appSaved
     jobAcme offerExisting (by decide) (by decide) (by decide) (by decide) (by decide)⟩

def uEmptyCurrency : ApplicationUpdate := { status := some "offer", offer_currency := some "" }

/-- C1 counterexample: a transition to "offer" with no existing Offer row,
where the patch supplies offer_currency as the (present, non-null) empty
string.  The claim requires the offer-detail fields to be taken from the
patch, falling back to defaults only where unsupplied; the handler uses
Python `or`, so the falsy "" is replaced by the default "KES" in the
created Offer. -/
theorem spec_c1_counterexample :
    uEmptyCurrency.offer_currency = some "" ∧
    (("KES" : String) = "" → False) ∧
    (updateApplicationRun 100 50 1 10 uEmptyCurrency dbSaved).offers =
      [{ id := 1, user_id := 10, application_id := 1, company_name := "Acme",
         position := "Engineer", salary := 0, currency := "KES",
         salary_frequency := "monthly", position_type := none, location := none,
         start_date := 50, offer_date := 50, deadline := 100, benefits := none,
         notes := none, status := "pending", negotiation_history := none,
         created_at := 100, updated_at := 100 }] := by
  decide

/-- C1 amended: on a transition into "offer", if no Offer row exists,
exactly one is created with company_name/position copied from the parent
Job, offer_date the current date, status "pending", and the offer-detail
fields taken from the patch with Python-or defaulting: falsy supplied
values (0 salary, empty-string currency or frequency) also fall back to
the defaults (salary 0, currency "KES", salary_frequency "monthly",
start_date current date, deadline current time); if an Offer row already
exists, no new row is created and the existing one is updated instead. -/
theorem spec_c1_offer_upsert_amended (now today appId uid : Nat) (u : ApplicationUpdate)
    (db : DB) (a0 : Application) (job : Job)
    (h : targetApp db appId uid = some a0)
    (hnew : newStatusOf u a0 = some "offer")
    (hold : oldStatusOf a0 ≠ some "offer")
    (hjob : findJob db a0.job_id = some job) :
    (findOffer db appId = none →
      ∃ db2 o, updateApplication now today appId uid u db = Except.ok db2 ∧
        db2.offers = db.offers ++ [o] ∧
        o.user_id = uid ∧
        o.application_id = appId ∧
        o.company_name = job.company ∧
        o.position = job.title ∧
        o.offer_date = today ∧
        o.status = "pending" ∧
        o.salary = orInt u.offer_salary 0 ∧
        o.currency = orStr u.offer_currency "KES" ∧
        o.salary_frequency = orStr u.offer_salary_frequency "monthly" ∧
        o.position_type = u.offer_position_type ∧
        o.location = u.offer_location ∧
        o.start_date = orDate u.offer_start_date today ∧
        o.deadline = orDate u.offer_deadline now ∧
        o.benefits = benefitsOf u.offer_benefits ∧
        o.notes = u.offer_notes) ∧
    (∀ off, findOffer db appId = some off →
      ∃ db2, updateApplication now today appId uid u db = Except.ok db2 ∧
        db2.offers.length = db.offers.length ∧
        ∃ o2, findOffer db2 appId = some o2 ∧ o2.updated_at = now) := by
  constructor
  · intro hoff
    have h1 : updateApplication now today appId uid u db =
        Except.ok
          { apps := replaceFirst (appPred appId uid) (applyUpdate now (newStatusOf u a0) u a0) db.apps
            jobs := db.jobs
            offers := db.offers ++ [mkNewOffer now today uid appId db.nextOfferId u job]
            nextOfferId := db.nextOfferId + 1 } := by
      simp only [updateApplication, h]
      rw [if_pos ⟨hnew, hold⟩, hjob, hoff]
    exact ⟨_, mkNewOffer now today uid appId db.nextOfferId u job, h1, rfl, rfl, rfl, rfl,
      rfl, rfl, rfl, rfl, rfl, rfl, rfl, rfl, rfl, rfl, rfl, rfl⟩
  · intro off hoff
    have h1 : updateApplication now today appId uid u db =
        Except.ok
          { apps := replaceFirst (appPred appId uid) (applyUpdate now (newStatusOf u a0) u a0) db.apps
            jobs := db.jobs
            offers := replaceFirst (fun o => o.application_id == appId) (applyOfferFields now u off) db.offers
            nextOfferId := db.nextOfferId } := by
      simp only [updateApplication, h]
      rw [if_pos ⟨hnew, hold⟩, hjob, hoff]
    refine ⟨_, h1, replaceFirst_length _ _ _, applyOfferFields now u off, ?_, rfl⟩
    unfold findOffer
    have hoff2 : List.find? (fun o => o.application_id == appId) db.offers = some off := hoff
    have hp := List.find?_some hoff2
    exact find?_replaceFirst (fun o => o.application_id == appId) (applyOfferFields now u off)
      hp db.offers off hoff2

def uW1 : ApplicationUpdate :=
  { status := some "offer", offer_salary := some 150000, offer_currency := some "USD" }

/-- Witness for C1 amended: the spec scenario — application 1 ("saved",
job "Acme"/"Engineer") receives status "offer" with salary 150000 and
currency "USD", no Offer row existing. -/
theorem spec_c1_offer_upsert_amended_witness :
    targetApp dbSaved 1 10 = some appSaved ∧
    newStatusOf uW1 appSaved = some "offer" ∧
    oldStatusOf appSaved = some "saved" ∧
    findJob dbSaved appSaved.job_id = some jobAcme ∧
    findOffer dbSaved 1 = none ∧
    ∃ db2 o, updateApplication 100 50 1 10 uW1 dbSaved = Except.ok db2 ∧
      db2.offers = dbSaved.offers ++ [o] ∧
      o.user_id = 10 ∧
      o.application_id = 1 ∧
      o.company_name = jobAcme.company ∧
      o.position = jobAcme.title ∧
      o.offer_date = 50 ∧
      o.status = "pending" ∧
      o.salary = orInt uW1.offer_salary 0 ∧
      o.currency = orStr uW1.offer_currency "KES" ∧
      o.salary_frequency = orStr uW1.offer_salary_frequency "monthly" ∧
      o.position_type = uW1.offer_position_type ∧
      o.location = uW1.offer_location ∧
      o.start_date = orDate uW1.offer_start_date 50 ∧
      o.deadline = orDate uW1.offer_deadline 100 ∧
      o.benefits = benefitsOf uW1.offer_benefits ∧
      o.notes = uW1.offer_notes :=
  ⟨by decide, by decide, by decide, by decide, by decide,
   (spec_c1_offer_upsert_amended 100 50 1 10 uW1 dbSaved appSaved jobAcme
     (by decide) (by decide) (by decide) (by decide)).1 (by decide)⟩

end KaziTracker

